import Mathlib

/-!
Shallow embedding of the osqp-python build orchestrator (setup.py):
platform resolution, the codegen snapshot preparer, and the two
build strategies of the CMake-driven build execution engine.
-/

namespace OsqpSetup

/-- The platform-dependent toolchain parameters computed once at module
load: cmake arguments, build flags, static library name, optional output
subdirectory, extra link libraries and compile flags. -/
structure PlatformProfile where
  cmake_args : List String
  cmake_build_flags : List String
  lib_name : String
  lib_subdir : List String
  libraries : List String
  compile_args : List String
  deriving Repr, DecidableEq

/-- Platform resolution, translated from the module top level of setup.py
(lines 43-126): branch on the OS name, append the generator, the Win64
marker when maxsize // 2^32 > 0, the PYTHON flag, the DLONG=OFF flag
unless the long option was passed, the python include argument, the
optimizer or debug flags, and the per-OS extra libraries. -/
def resolvePlatform (sysName : String) (maxsize : Nat) (long debug : Bool)
    (pythonInc : String) : PlatformProfile :=
  let base := ["-DUNITTESTS=OFF"]
  let win := sysName = "Windows"
  let gen :=
    if win then
      if maxsize / 2 ^ 32 > 0 then "Visual Studio 14 2015 Win64"
      else "Visual Studio 14 2015"
    else "Unix Makefiles"
  let cmake_build_flags := if win then ["--config", "Release"] else []
  let lib_name := if win then "osqp.lib" else "libosqp.a"
  let lib_subdir := if win then ["Release"] else []
  let cmake_args := base ++ ["-G", gen] ++ ["-DPYTHON=ON"]
  let cmake_args := if !long then cmake_args ++ ["-DDLONG=OFF"] else cmake_args
  let cmake_args := cmake_args ++ ["-DPYTHON_INCLUDE_DIRS=" ++ pythonInc]
  let compile_args := if sysName ≠ "Windows" then ["-O3"] else []
  let compile_args := if debug then compile_args ++ ["-g"] else compile_args
  let cmake_args :=
    if debug then cmake_args ++ ["-DCMAKE_BUILD_TYPE=Debug"] else cmake_args
  let libraries :=
    (if sysName = "Linux" then ["rt"] else []) ++
    (if sysName = "Windows" then ["legacy_stdio_definitions"] else [])
  { cmake_args := cmake_args, cmake_build_flags := cmake_build_flags,
    lib_name := lib_name, lib_subdir := lib_subdir, libraries := libraries,
    compile_args := compile_args }

/-- The generator string of a profile: the argument following the -G flag,
which resolvePlatform always places at position 2 of cmake_args. -/
def generatorOf (p : PlatformProfile) : String :=
  (p.cmake_args.drop 2).headD ""

/-- The python include argument can never collide with the DLONG flag. -/
theorem pythonIncArg_ne_dlong (inc : String) :
    "-DPYTHON_INCLUDE_DIRS=" ++ inc ≠ "-DDLONG=OFF" := by
  intro h
  have hl := congrArg String.length h
  rw [String.length_append] at hl
  have h1 : "-DPYTHON_INCLUDE_DIRS=".length = 22 := rfl
  have h2 : "-DDLONG=OFF".length = 11 := rfl
  rw [h1, h2] at hl
  omega

/-- C3: for every supported platform pair, the resolver produces exactly
the table of section 4.1: Windows gets generator Visual Studio 14 2015
with a Win64 marker appended iff the host is 64-bit, extra library
legacy_stdio_definitions, archive osqp.lib and output subdir Release;
Linux gets Unix Makefiles, rt, libosqp.a, no subdir; macOS (Darwin) gets
Unix Makefiles, no extra library, libosqp.a, no subdir; and -DDLONG=OFF
is appended iff the long override flag is not passed. -/
theorem c3_platform_table (maxsize : Nat) (long debug : Bool) (inc : String) :
    (generatorOf (resolvePlatform "Windows" maxsize long debug inc) =
      (if maxsize / 2 ^ 32 > 0 then "Visual Studio 14 2015 Win64"
       else "Visual Studio 14 2015")) ∧
    (resolvePlatform "Windows" maxsize long debug inc).libraries =
      ["legacy_stdio_definitions"] ∧
    (resolvePlatform "Windows" maxsize long debug inc).lib_name = "osqp.lib" ∧
    (resolvePlatform "Windows" maxsize long debug inc).lib_subdir = ["Release"] ∧
    (resolvePlatform "Windows" maxsize long debug inc).cmake_build_flags =
      ["--config", "Release"] ∧
    generatorOf (resolvePlatform "Linux" maxsize long debug inc) =
      "Unix Makefiles" ∧
    (resolvePlatform "Linux" maxsize long debug inc).libraries = ["rt"] ∧
    (resolvePlatform "Linux" maxsize long debug inc).lib_name = "libosqp.a" ∧
    (resolvePlatform "Linux" maxsize long debug inc).lib_subdir = [] ∧
    generatorOf (resolvePlatform "Darwin" maxsize long debug inc) =
      "Unix Makefiles" ∧
    (resolvePlatform "Darwin" maxsize long debug inc).libraries = [] ∧
    (resolvePlatform "Darwin" maxsize long debug inc).lib_name = "libosqp.a" ∧
    (resolvePlatform "Darwin" maxsize long debug inc).lib_subdir = [] ∧
    ("-DDLONG=OFF" ∈ (resolvePlatform "Windows" maxsize long debug inc).cmake_args
      ↔ long = false) ∧
    ("-DDLONG=OFF" ∈ (resolvePlatform "Linux" maxsize long debug inc).cmake_args
      ↔ long = false) ∧
    ("-DDLONG=OFF" ∈ (resolvePlatform "Darwin" maxsize long debug inc).cmake_args
      ↔ long = false) := by
  cases long <;> cases debug <;>
    by_cases h64 : maxsize / 2 ^ 32 > 0 <;>
      simp [resolvePlatform, generatorOf, h64,
        (pythonIncArg_ne_dlong inc).symm] <;>
      (try (split <;> simp))

/-- C4 counterexample: on an unrecognized OS (FreeBSD) platform resolution
does not fail with an unsupported-platform error; it produces an ordinary
Unix-like profile, because the code treats every non-Windows system in the
same else branch. -/
theorem c4_counterexample :
    resolvePlatform "FreeBSD" (2 ^ 63) false false "INC" =
      { cmake_args := ["-DUNITTESTS=OFF", "-G", "Unix Makefiles", "-DPYTHON=ON",
          "-DDLONG=OFF", "-DPYTHON_INCLUDE_DIRS=INC"],
        cmake_build_flags := [], lib_name := "libosqp.a", lib_subdir := [],
        libraries := [], compile_args := ["-O3"] } := by
  rfl

/-- C4 amended: for every host OS outside the recognized set
\x7bwindows, linux, macos\x7d, platform resolution does not fail: the OS is
handled by the catch-all non-Windows branch and yields exactly the profile
that macOS (Darwin) would get. Resolution has no failure mode at all. -/
theorem c4_amended (os : String) (maxsize : Nat) (long debug : Bool)
    (inc : String) (hW : os ≠ "Windows") (hL : os ≠ "Linux")
    (_hD : os ≠ "Darwin") :
    resolvePlatform os maxsize long debug inc =
      resolvePlatform "Darwin" maxsize long debug inc := by
  simp [resolvePlatform, hW, hL]

/-- Witness for c4_amended at the concrete OS name FreeBSD. -/
theorem c4_amended_witness :
    resolvePlatform "FreeBSD" 0 true true "I" =
      resolvePlatform "Darwin" 0 true true "I" :=
  c4_amended "FreeBSD" 0 true true "I" (by decide) (by decide) (by decide)

/-- Names excluded from the C file listing of the solver src directory
(setup.py line 138). -/
def cDenylist : List String := ["cs.c", "ctrlc.c", "polish.c", "lin_sys.c"]

/-- Names excluded from the H file listing of the solver include directory
(setup.py lines 156-159). -/
def hDenylist : List String :=
  ["qdldl_types.h", "osqp_configure.h", "cs.h", "ctrlc.h", "polish.h",
   "lin_sys.h"]

/-- The directory listings consumed by prepare_codegen: file names found in
the solver src and include directories, in the qdldl directory, and in the
nested qdldl_sources src and include directories. -/
structure CodegenInput where
  osqpSrcFiles : List String
  osqpIncludeFiles : List String
  qdldlFiles : List String
  qdldlSrcFiles : List String
  qdldlIncludeFiles : List String
  deriving Repr, DecidableEq

/-- The destination tree produced under src/osqp/codegen/sources: names of
the files placed in the src, include and configure subdirectories. -/
structure Snapshot where
  srcFiles : List String
  includeFiles : List String
  configureFiles : List String
  deriving Repr, DecidableEq

/-- The python str.endswith test, modelled as a suffix test on the
character lists of the two strings. -/
def endsWith (f ext : String) : Bool :=
  ext.data.isSuffixOf f.data

/-- The file selection and copy logic of prepare_codegen (setup.py lines
129-190): C files of the solver src directory filtered by extension .c and
the denylist, plus .c files of the qdldl directory, plus ALL files of
qdldl_sources/src (no extension filter in the code); H files filtered by
.h with the denylist applied only to the solver include listing; two fixed
configure templates; and a CMakeLists.txt copied into both the src and the
include destination. -/
def prepare_codegen_output (inp : CodegenInput) : Snapshot :=
  let cfiles :=
    inp.osqpSrcFiles.filter
      (fun f => endsWith f ".c" && !(decide (f ∈ cDenylist))) ++
    inp.qdldlFiles.filter (fun f => endsWith f ".c") ++
    inp.qdldlSrcFiles
  let hfiles :=
    inp.osqpIncludeFiles.filter
      (fun f => endsWith f ".h" && !(decide (f ∈ hDenylist))) ++
    inp.qdldlFiles.filter (fun f => endsWith f ".h") ++
    inp.qdldlIncludeFiles.filter (fun f => endsWith f ".h")
  { srcFiles := cfiles ++ ["CMakeLists.txt"],
    includeFiles := hfiles ++ ["CMakeLists.txt"],
    configureFiles := ["osqp_configure.h.in", "qdldl_types.h.in"] }

/-- prepare_codegen as a filesystem step: the optional argument is the
destination tree left by a previous run (none when absent). Lines 131-133
remove the destination root whenever it exists and recreate it empty, so
the previous contents are discarded in either case before the copies run. -/
def prepare_codegen (inp : CodegenInput) : Option Snapshot → Snapshot
  | some _ => prepare_codegen_output inp
  | none => prepare_codegen_output inp

/-- C5: running the Snapshot Preparer twice in succession yields identical
destination trees, and the result never depends on what the destination
held before the run: the root is recreated from empty every time, so no
leftover file survives. -/
theorem c5_idempotent (inp : CodegenInput) (prev prev2 : Option Snapshot) :
    prepare_codegen inp (some (prepare_codegen inp prev)) =
      prepare_codegen inp prev ∧
    prepare_codegen inp prev = prepare_codegen inp prev2 := by
  cases prev <;> cases prev2 <;> exact ⟨rfl, rfl⟩

/-- C2 counterexample: with a qdldl_sources/src listing holding README.md
(copied without any extension check) and a qdldl directory holding the
denylisted name cs.c (the denylist is applied only to the solver src
listing), the snapshot src subtree contains README.md (not a .c file),
the denylisted cs.c, and the CMakeLists.txt build file (also not a .c
file), refuting the claim that every copied src file has extension .c and
that no denylist name appears anywhere in the output. -/
theorem c2_counterexample :
    let inp : CodegenInput :=
      { osqpSrcFiles := ["auxil.c", "cs.c"],
        osqpIncludeFiles := ["auxil.h"],
        qdldlFiles := ["cs.c", "qdldl_interface.c", "qdldl_interface.h"],
        qdldlSrcFiles := ["qdldl.c", "README.md"],
        qdldlIncludeFiles := ["qdldl.h"] }
    let out := prepare_codegen inp none
    "README.md" ∈ out.srcFiles ∧ endsWith "README.md" ".c" = false ∧
    "cs.c" ∈ out.srcFiles ∧ "cs.c" ∈ cDenylist ∧
    "CMakeLists.txt" ∈ out.srcFiles ∧
    endsWith "CMakeLists.txt" ".c" = false ∧
    "CMakeLists.txt" ∈ out.includeFiles ∧
    endsWith "CMakeLists.txt" ".h" = false := by
  decide

/-- C2 amended: every file the Snapshot Preparer copies into the snapshot
src subtree either has extension .c and (when it came from the solver src
listing) is outside the source denylist, or came unfiltered from the
qdldl_sources/src listing, or is the fixed CMakeLists.txt build file;
every file copied into the include subtree has extension .h or is the
CMakeLists.txt build file, and denylisted header names can only come from
the qdldl listings, never from the solver include listing. -/
theorem c2_amended (inp : CodegenInput) (f : String) :
    (f ∈ (prepare_codegen inp none).srcFiles →
      (endsWith f ".c" = true ∧ f ∉ cDenylist) ∨
      (endsWith f ".c" = true ∧ f ∈ inp.qdldlFiles) ∨
      f ∈ inp.qdldlSrcFiles ∨ f = "CMakeLists.txt") ∧
    (f ∈ (prepare_codegen inp none).includeFiles →
      endsWith f ".h" = true ∨ f = "CMakeLists.txt") ∧
    (f ∈ (prepare_codegen inp none).includeFiles → f ∈ hDenylist →
      f ∈ inp.qdldlFiles ∨ f ∈ inp.qdldlIncludeFiles) := by
  refine ⟨?_, ?_, ?_⟩ <;>
    simp only [prepare_codegen, prepare_codegen_output, List.mem_append,
      List.mem_filter, List.mem_singleton, Bool.and_eq_true,
      Bool.not_eq_true', decide_eq_false_iff_not] <;> intro h
  · rcases h with ((⟨h1, h2, h3⟩ | ⟨h1, h2⟩) | h1) | h1
    · exact Or.inl ⟨h2, h3⟩
    · exact Or.inr (Or.inl ⟨h2, h1⟩)
    · exact Or.inr (Or.inr (Or.inl h1))
    · exact Or.inr (Or.inr (Or.inr h1))
  · rcases h with ((⟨h1, h2, h3⟩ | ⟨h1, h2⟩) | ⟨h1, h2⟩) | h1
    · exact Or.inl h2
    · exact Or.inl h2
    · exact Or.inl h2
    · exact Or.inr h1
  · intro hd
    rcases h with ((⟨h1, h2, h3⟩ | ⟨h1, h2⟩) | ⟨h1, h2⟩) | h1
    · exact absurd hd h3
    · exact Or.inl h1
    · exact Or.inr h1
    · exact absurd hd (by subst h1; decide)

/-- Witness for c2_amended: its conclusions evaluated at a concrete input
and file name. -/
theorem c2_amended_witness :
    "qdldl.c" ∈
      (prepare_codegen
        { osqpSrcFiles := ["auxil.c"], osqpIncludeFiles := ["auxil.h"],
          qdldlFiles := [], qdldlSrcFiles := ["qdldl.c"],
          qdldlIncludeFiles := [] } none).srcFiles ∧
    ((endsWith "qdldl.c" ".c" = true ∧ "qdldl.c" ∉ cDenylist) ∨
      (endsWith "qdldl.c" ".c" = true ∧ "qdldl.c" ∈ ([] : List String)) ∨
      "qdldl.c" ∈ ["qdldl.c"] ∨ "qdldl.c" = "CMakeLists.txt") :=
  ⟨by decide,
    (c2_amended
      { osqpSrcFiles := ["auxil.c"], osqpIncludeFiles := ["auxil.h"],
        qdldlFiles := [], qdldlSrcFiles := ["qdldl.c"],
        qdldlIncludeFiles := [] } "qdldl.c").1 (by decide)⟩

/-- Observable filesystem and process events of a legacy build run. -/
inductive Event where
  | recreateDir (d : String)
  | chdir (d : String)
  | probeCMake
  | callConfigure
  | callBuild
  | copyAttempt (src dst : String)
  deriving Repr, DecidableEq

/-- True exactly on directory-recreation events. -/
def Event.isRecreate : Event → Bool
  | .recreateDir _ => true
  | _ => false

/-- True exactly on archive-copy attempts. -/
def Event.isCopy : Event → Bool
  | .copyAttempt _ _ => true
  | _ => false

/-- The exceptions the build engine can surface: the RuntimeError raised
for a missing cmake, the CalledProcessError of check_output and check_call
on a non-zero exit, and the FileNotFoundError of copyfile on a missing
origin. -/
inductive BuildError where
  | runtimeError (msg : String)
  | calledProcessError (cmd : List String) (exitCode : Nat)
  | fileNotFound (path : String)
  deriving Repr, DecidableEq

/-- The external environment a legacy build run interacts with: whether
launching cmake succeeds at all (False models the OSError of an absent
tool), the exit code of the version probe when it launches, the exit codes
of the configure and build invocations (both discarded by the code, which
uses call), whether the static archive exists at its expected origin after
the build, and its contents. -/
structure BuildEnv where
  cmakeLaunches : Bool
  cmakeVersionExit : Nat
  configureExit : Nat
  buildExit : Nat
  archivePresent : Bool
  archiveBytes : String
  deriving Repr, DecidableEq

/-- The observable result of a legacy build run: the event trace, the final
process working directory, the content of lib_name inside the extension
src directory after the run, and the outcome. -/
structure LegacyRun where
  trace : List Event
  cwd : String
  srcDirLib : Option String
  outcome : Except BuildError Unit
  deriving Repr

/-- os.path.join on relative components, as used by setup.py. -/
def joinPath (components : List String) : String :=
  String.intercalate "/" components

/-- CMakeBuild.build_extension_legacy (setup.py lines 245-270): recreate
the build directory, chdir into it, probe cmake --version (an OSError is
converted to the RuntimeError, a non-zero probe exit escapes as
CalledProcessError), run the configure and build steps with call (exit
codes discarded), chdir back to current_dir, and copy the archive from
build_dir/out/(lib_subdir)/lib_name to src_dir/lib_name, overwriting any
previous copy; a missing origin raises FileNotFoundError. -/
def build_extension_legacy (env : BuildEnv) (lib_subdir : List String)
    (lib_name : String) (src_dir build_dir current_dir : String)
    (prevLib : Option String) : LegacyRun :=
  let t := [Event.recreateDir build_dir, Event.chdir build_dir,
    Event.probeCMake]
  if !env.cmakeLaunches then
    { trace := t, cwd := build_dir, srcDirLib := prevLib,
      outcome := .error
        (.runtimeError "CMake must be installed to build OSQP") }
  else if env.cmakeVersionExit ≠ 0 then
    { trace := t, cwd := build_dir, srcDirLib := prevLib,
      outcome := .error
        (.calledProcessError ["cmake", "--version"] env.cmakeVersionExit) }
  else
    let lib_origin := joinPath ([build_dir, "out"] ++ lib_subdir ++ [lib_name])
    let dst := joinPath [src_dir, lib_name]
    let t := t ++ [Event.callConfigure, Event.callBuild,
      Event.chdir current_dir, Event.copyAttempt lib_origin dst]
    if env.archivePresent then
      { trace := t, cwd := current_dir, srcDirLib := some env.archiveBytes,
        outcome := .ok () }
    else
      { trace := t, cwd := current_dir, srcDirLib := prevLib,
        outcome := .error (.fileNotFound lib_origin) }

/-- subprocess.check_call: raises CalledProcessError on non-zero exit. -/
def check_call (cmd : List String) (exitCode : Nat) :
    Except BuildError Unit :=
  if exitCode = 0 then .ok () else .error (.calledProcessError cmd exitCode)

/-- Exit codes the direct-strategy run observes from its two cmake
invocations. -/
structure PybindEnv where
  configureExit : Nat
  buildExit : Nat
  deriving Repr, DecidableEq

/-- The configure command of the direct strategy (setup.py lines 274-286,
292): cmake, the extension source directory, the output-directory and
interpreter settings, and on Windows the per-config output directory and
the x64 architecture flag when sys.maxsize > 2^32, otherwise the build
type. -/
def pybindConfigureCmd (sourcedir extdir pythonExe sysName : String)
    (maxsize : Nat) (debug : Bool) : List String :=
  let cfg := if debug then "Debug" else "Release"
  let cmake_args := ["-DCMAKE_LIBRARY_OUTPUT_DIRECTORY=" ++ extdir,
    "-DPYTHON_EXECUTABLE=" ++ pythonExe]
  let cmake_args :=
    if sysName = "Windows" then
      cmake_args ++
        ["-DCMAKE_LIBRARY_OUTPUT_DIRECTORY_" ++ cfg.toUpper ++ "=" ++ extdir]
        ++ (if maxsize > 2 ^ 32 then ["-A", "x64"] else [])
    else cmake_args ++ ["-DCMAKE_BUILD_TYPE=" ++ cfg]
  ["cmake", sourcedir] ++ cmake_args

/-- The build command of the direct strategy (setup.py lines 278-287, 293):
cmake --build . with the config and the platform parallelism arguments. -/
def pybindBuildCmd (sysName : String) (debug : Bool) : List String :=
  let cfg := if debug then "Debug" else "Release"
  let build_args := ["--config", cfg]
  let build_args :=
    if sysName = "Windows" then build_args ++ ["--", "/m"]
    else build_args ++ ["--", "-j2"]
  ["cmake", "--build", "."] ++ build_args

/-- CMakeBuild.build_extension_pybind11 (setup.py lines 272-293): invoke
the configure and build commands through check_call, so the first non-zero
exit aborts the run. -/
def build_extension_pybind11 (env : PybindEnv)
    (sourcedir extdir pythonExe sysName : String) (maxsize : Nat)
    (debug : Bool) : Except BuildError Unit :=
  match check_call
      (pybindConfigureCmd sourcedir extdir pythonExe sysName maxsize debug)
      env.configureExit with
  | .error e => .error e
  | .ok _ => check_call (pybindBuildCmd sysName debug) env.buildExit

/-- C6: when the external build tool is absent (probing its version fails
to launch), every legacy build run fails with the RuntimeError carrying
the build-tool-required message, the build directory has been recreated
exactly once (never a second time), and no archive copy is attempted. -/
theorem c6_tool_absent_fails_before_copy (env : BuildEnv)
    (lib_subdir : List String) (lib_name src_dir build_dir cur : String)
    (prev : Option String) (h : env.cmakeLaunches = false) :
    (build_extension_legacy env lib_subdir lib_name src_dir build_dir cur
        prev).outcome =
      .error (.runtimeError "CMake must be installed to build OSQP") ∧
    (build_extension_legacy env lib_subdir lib_name src_dir build_dir cur
        prev).trace.countP Event.isRecreate = 1 ∧
    (build_extension_legacy env lib_subdir lib_name src_dir build_dir cur
        prev).trace.countP Event.isCopy = 0 := by
  simp [build_extension_legacy, h, List.countP_cons, List.countP_nil,
    Event.isRecreate, Event.isCopy]

/-- Witness for c6_tool_absent_fails_before_copy at a concrete
environment with cmake absent. -/
theorem c6_witness :
    ({ cmakeLaunches := false, cmakeVersionExit := 0, configureExit := 0,
       buildExit := 0, archivePresent := true,
       archiveBytes := "A" : BuildEnv }).cmakeLaunches = false ∧
    (build_extension_legacy
        { cmakeLaunches := false, cmakeVersionExit := 0, configureExit := 0,
          buildExit := 0, archivePresent := true, archiveBytes := "A" }
        [] "libosqp.a" "src/extension/src" "osqp_sources/build" "/work"
        none).outcome =
      .error (.runtimeError "CMake must be installed to build OSQP") :=
  ⟨rfl,
    (c6_tool_absent_fails_before_copy
      { cmakeLaunches := false, cmakeVersionExit := 0, configureExit := 0,
        buildExit := 0, archivePresent := true, archiveBytes := "A" }
      [] "libosqp.a" "src/extension/src" "osqp_sources/build" "/work"
      none rfl).1⟩

/-- C9: the toolchain probe converts only a launch failure into the
build-tool-required RuntimeError; when the probe launches but exits
non-zero, the run ends with the CalledProcessError of check_output and no
RuntimeError is ever reported. -/
theorem c9_probe_nonzero_escapes (env : BuildEnv)
    (lib_subdir : List String) (lib_name src_dir build_dir cur : String)
    (prev : Option String) (h1 : env.cmakeLaunches = true)
    (h2 : env.cmakeVersionExit ≠ 0) :
    (build_extension_legacy env lib_subdir lib_name src_dir build_dir cur
        prev).outcome =
      .error (.calledProcessError ["cmake", "--version"]
        env.cmakeVersionExit) ∧
    ∀ msg, (build_extension_legacy env lib_subdir lib_name src_dir build_dir
        cur prev).outcome ≠ .error (.runtimeError msg) := by
  simp [build_extension_legacy, h1, h2]

/-- Witness for c9_probe_nonzero_escapes: probe launches and exits 2. -/
theorem c9_witness :
    (2 : Nat) ≠ 0 ∧
    (build_extension_legacy
        { cmakeLaunches := true, cmakeVersionExit := 2, configureExit := 0,
          buildExit := 0, archivePresent := true, archiveBytes := "A" }
        [] "libosqp.a" "src/extension/src" "osqp_sources/build" "/work"
        none).outcome =
      .error (.calledProcessError ["cmake", "--version"] 2) :=
  ⟨by decide,
    (c9_probe_nonzero_escapes
      { cmakeLaunches := true, cmakeVersionExit := 2, configureExit := 0,
        buildExit := 0, archivePresent := true, archiveBytes := "A" }
      [] "libosqp.a" "src/extension/src" "osqp_sources/build" "/work"
      none rfl (by decide)).1⟩

/-- C7: past the probe, the legacy run always attempts the copy with the
origin formed by joining the build directory, the literal component out,
the optional configuration subdirectory and the static library filename,
and the destination src_dir/lib_name; when the archive is present the
destination file afterwards holds the archive bytes regardless of what it
held before (overwrite). -/
theorem c7_archive_path_and_copy (env : BuildEnv)
    (lib_subdir : List String) (lib_name src_dir build_dir cur : String)
    (prev : Option String) (h1 : env.cmakeLaunches = true)
    (h2 : env.cmakeVersionExit = 0) :
    Event.copyAttempt
        (joinPath ([build_dir, "out"] ++ lib_subdir ++ [lib_name]))
        (joinPath [src_dir, lib_name]) ∈
      (build_extension_legacy env lib_subdir lib_name src_dir build_dir cur
        prev).trace ∧
    (env.archivePresent = true →
      (build_extension_legacy env lib_subdir lib_name src_dir build_dir cur
        prev).srcDirLib = some env.archiveBytes) := by
  by_cases ha : env.archivePresent <;>
    simp [build_extension_legacy, h1, h2, ha]

/-- Witness for c7_archive_path_and_copy on Windows parameters, with a
previous copy that gets overwritten. -/
theorem c7_witness :
    Event.copyAttempt
        (joinPath (["osqp_sources/build", "out"] ++ ["Release"] ++
          ["osqp.lib"]))
        (joinPath ["src/extension/src", "osqp.lib"]) ∈
      (build_extension_legacy
        { cmakeLaunches := true, cmakeVersionExit := 0, configureExit := 0,
          buildExit := 0, archivePresent := true, archiveBytes := "NEW" }
        ["Release"] "osqp.lib" "src/extension/src" "osqp_sources/build"
        "/work" (some "OLD")).trace ∧
    (build_extension_legacy
        { cmakeLaunches := true, cmakeVersionExit := 0, configureExit := 0,
          buildExit := 0, archivePresent := true, archiveBytes := "NEW" }
        ["Release"] "osqp.lib" "src/extension/src" "osqp_sources/build"
        "/work" (some "OLD")).srcDirLib = some "NEW" :=
  ⟨(c7_archive_path_and_copy
      { cmakeLaunches := true, cmakeVersionExit := 0, configureExit := 0,
        buildExit := 0, archivePresent := true, archiveBytes := "NEW" }
      ["Release"] "osqp.lib" "src/extension/src" "osqp_sources/build"
      "/work" (some "OLD") rfl rfl).1,
    (c7_archive_path_and_copy
      { cmakeLaunches := true, cmakeVersionExit := 0, configureExit := 0,
        buildExit := 0, archivePresent := true, archiveBytes := "NEW" }
      ["Release"] "osqp.lib" "src/extension/src" "osqp_sources/build"
      "/work" (some "OLD") rfl rfl).2 rfl⟩

/-- C1: the legacy strategy does NOT abort when the build step exits
non-zero. In a run whose build invocation exits 1 and produces no archive,
the copy is still attempted and the reported failure is the
FileNotFoundError on the missing archive (ArtifactNotFound), not an
external-build-failure: the code discards the exit codes of call, exactly
the defect the spec flags. -/
theorem c1_build_failure_reaches_copy :
    (build_extension_legacy
        { cmakeLaunches := true, cmakeVersionExit := 0, configureExit := 0,
          buildExit := 1, archivePresent := false, archiveBytes := "" }
        [] "libosqp.a" "src/extension/src" "osqp_sources/build" "/work"
        none).outcome =
      .error (.fileNotFound "osqp_sources/build/out/libosqp.a") ∧
    Event.copyAttempt "osqp_sources/build/out/libosqp.a"
        "src/extension/src/libosqp.a" ∈
      (build_extension_legacy
        { cmakeLaunches := true, cmakeVersionExit := 0, configureExit := 0,
          buildExit := 1, archivePresent := false, archiveBytes := "" }
        [] "libosqp.a" "src/extension/src" "osqp_sources/build" "/work"
        none).trace := by
  exact ⟨rfl, by decide⟩

/-- C10 counterexample: a legacy run that passes the probe but fails at
the copy step (archive absent) ends in failure with the working directory
already restored to the original directory, refuting the parenthetical
that the working directory is restored only on the success path. -/
theorem c10_counterexample :
    (build_extension_legacy
        { cmakeLaunches := true, cmakeVersionExit := 0, configureExit := 0,
          buildExit := 0, archivePresent := false, archiveBytes := "" }
        [] "libosqp.a" "src/extension/src" "osqp_sources/build" "/work"
        none).outcome ≠ .ok () ∧
    (build_extension_legacy
        { cmakeLaunches := true, cmakeVersionExit := 0, configureExit := 0,
          buildExit := 0, archivePresent := false, archiveBytes := "" }
        [] "libosqp.a" "src/extension/src" "osqp_sources/build" "/work"
        none).cwd = "/work" := by
  refine ⟨?_, rfl⟩
  simp [build_extension_legacy, joinPath]

/-- C10 amended: every legacy run destroys and recreates the build
directory and changes the working directory into it before probing for
the build tool; when the probe fails with the toolchain-missing error,
the directory has already been recreated and the working directory is
left pointing at it; the working directory is restored to the original
directory on every run that passes the probe, including runs that later
fail at the archive-copy step, not only on the success path. -/
theorem c10_amended (env : BuildEnv) (lib_subdir : List String)
    (lib_name src_dir build_dir cur : String) (prev : Option String) :
    (build_extension_legacy env lib_subdir lib_name src_dir build_dir cur
        prev).trace.take 3 =
      [Event.recreateDir build_dir, Event.chdir build_dir,
        Event.probeCMake] ∧
    (env.cmakeLaunches = false →
      (build_extension_legacy env lib_subdir lib_name src_dir build_dir cur
          prev).cwd = build_dir ∧
      (build_extension_legacy env lib_subdir lib_name src_dir build_dir cur
          prev).outcome =
        .error (.runtimeError "CMake must be installed to build OSQP")) ∧
    (env.cmakeLaunches = true → env.cmakeVersionExit = 0 →
      (build_extension_legacy env lib_subdir lib_name src_dir build_dir cur
          prev).cwd = cur) := by
  by_cases hl : env.cmakeLaunches <;>
    by_cases hv : env.cmakeVersionExit = 0 <;>
    by_cases ha : env.archivePresent <;>
    simp [build_extension_legacy, hl, hv, ha]

/-- Witness for c10_amended on a run with cmake absent. -/
theorem c10_amended_witness :
    (build_extension_legacy
        { cmakeLaunches := false, cmakeVersionExit := 0, configureExit := 0,
          buildExit := 0, archivePresent := true, archiveBytes := "A" }
        [] "libosqp.a" "src/extension/src" "osqp_sources/build" "/work"
        none).trace.take 3 =
      [Event.recreateDir "osqp_sources/build",
        Event.chdir "osqp_sources/build", Event.probeCMake] ∧
    (build_extension_legacy
        { cmakeLaunches := false, cmakeVersionExit := 0, configureExit := 0,
          buildExit := 0, archivePresent := true, archiveBytes := "A" }
        [] "libosqp.a" "src/extension/src" "osqp_sources/build" "/work"
        none).cwd = "osqp_sources/build" :=
  ⟨(c10_amended
      { cmakeLaunches := false, cmakeVersionExit := 0, configureExit := 0,
        buildExit := 0, archivePresent := true, archiveBytes := "A" }
      [] "libosqp.a" "src/extension/src" "osqp_sources/build" "/work"
      none).1,
    ((c10_amended
      { cmakeLaunches := false, cmakeVersionExit := 0, configureExit := 0,
        buildExit := 0, archivePresent := true, archiveBytes := "A" }
      [] "libosqp.a" "src/extension/src" "osqp_sources/build" "/work"
      none).2.1 rfl).1⟩

/-- C8: in the direct strategy a non-zero exit from either the configure
or the build invocation is propagated as a fatal CalledProcessError,
unlike the legacy strategy, which completes with a successful outcome in
spite of arbitrary configure and build exit codes. -/
theorem c8_direct_propagates_failure (env : PybindEnv) (envL : BuildEnv)
    (sourcedir extdir py os : String) (maxsize : Nat) (debug : Bool)
    (lib_subdir : List String) (lib_name src_dir build_dir cur : String)
    (prev : Option String)
    (h : env.configureExit ≠ 0 ∨ env.buildExit ≠ 0)
    (hl : envL.cmakeLaunches = true) (hv : envL.cmakeVersionExit = 0)
    (ha : envL.archivePresent = true) :
    (∃ cmd ec, build_extension_pybind11 env sourcedir extdir py os maxsize
        debug = .error (.calledProcessError cmd ec) ∧ ec ≠ 0) ∧
    (build_extension_legacy envL lib_subdir lib_name src_dir build_dir cur
      prev).outcome = .ok () := by
  constructor
  · by_cases hc : env.configureExit = 0
    · rcases h with h | h
      · exact absurd hc h
      · exact ⟨pybindBuildCmd os debug, env.buildExit,
          by simp [build_extension_pybind11, check_call, hc, h], h⟩
    · exact ⟨pybindConfigureCmd sourcedir extdir py os maxsize debug,
        env.configureExit,
        by simp [build_extension_pybind11, check_call, hc], hc⟩
  · simp [build_extension_legacy, hl, hv, ha]

/-- Witness for c8_direct_propagates_failure: configure exits 1 in the
direct strategy while a legacy run with build exit 7 still succeeds. -/
theorem c8_witness :
    ((1 : Nat) ≠ 0 ∨ (0 : Nat) ≠ 0) ∧
    (∃ cmd ec, build_extension_pybind11 { configureExit := 1, buildExit := 0 }
        "src/ext" "/out" "/usr/bin/python" "Linux" (2 ^ 63) false =
        .error (.calledProcessError cmd ec) ∧ ec ≠ 0) ∧
    (build_extension_legacy
      { cmakeLaunches := true, cmakeVersionExit := 0, configureExit := 1,
        buildExit := 7, archivePresent := true, archiveBytes := "A" }
      [] "libosqp.a" "src/extension/src" "osqp_sources/build" "/work"
      none).outcome = .ok () :=
  ⟨Or.inl (by decide),
    c8_direct_propagates_failure { configureExit := 1, buildExit := 0 }
      { cmakeLaunches := true, cmakeVersionExit := 0, configureExit := 1,
        buildExit := 7, archivePresent := true, archiveBytes := "A" }
      "src/ext" "/out" "/usr/bin/python" "Linux" (2 ^ 63) false
      [] "libosqp.a" "src/extension/src" "osqp_sources/build" "/work"
      none (Or.inl (by decide)) rfl rfl rfl⟩

end OsqpSetup
